import Mathlib

/-
Verification development for the Wall Street Analyst decision/learning core.

The decision engine's action thresholds, the STRONG_BUY target/stop multiples
and the default weight vector are transcribed from the code fragments present
in the repository (the audit document quotes decision_engine.py verbatim, and
the learning_state SQL insert gives the default adapted_weights).  The parts
of the engine whose source is not in the repository snapshot are modelled
from the specification, as marked in the individual doc comments.
-/

namespace WSA

/-- Decision action labels, from decision_engine.py (quoted in the audit,
HOLE 1) and the decisions table comment: STRONG_BUY, BUY, HOLD, SELL,
STRONG_SELL. -/
inductive Action where
  | strongBuy
  | buy
  | hold
  | sell
  | strongSell
deriving DecidableEq, Repr

/-- Outcome labels for an evaluated decision, from the decisions table
comment: TARGET_HIT, STOPLOSS_HIT, OPEN, HOLD. -/
inductive Outcome where
  | targetHit
  | stoplossHit
  | stillOpen
  | holdTracked
deriving DecidableEq, Repr

/-- The five recognized factors.  Named technical, fundamental, momentum,
macro, volume_delivery in the source (learning_state default insert); the
macro factor is renamed macroImpact because its source name is a Lean
keyword. -/
inductive Factor where
  | technical
  | fundamental
  | momentum
  | macroImpact
  | volumeDelivery
deriving DecidableEq, Repr

/-- Sum of a per-factor quantity over the five factors. -/
def sumW (w : Factor → ℚ) : ℚ :=
  w .technical + w .fundamental + w .momentum + w .macroImpact + w .volumeDelivery

/-- Default weight vector, from the learning_state default insert in the
audit document: technical 0.30, fundamental 0.25, momentum 0.20, macro 0.15,
volume_delivery 0.10. -/
def defaultWeights : Factor → ℚ
  | .technical => 3/10
  | .fundamental => 1/4
  | .momentum => 1/5
  | .macroImpact => 3/20
  | .volumeDelivery => 1/10

/-- Action classification from the composite score, transcribed from
decision_engine.py as quoted in the audit (HOLE 1):
composite at least 72 gives STRONG_BUY, at least 60 BUY, at least 42 HOLD,
at least 30 SELL, otherwise STRONG_SELL. -/
def classifyAction (c : ℚ) : Action :=
  if 72 ≤ c then .strongBuy
  else if 60 ≤ c then .buy
  else if 42 ≤ c then .hold
  else if 30 ≤ c then .sell
  else .strongSell

/-- How far an action label is from the neutral HOLD label; STRONG labels
are the more extreme ones on each side. -/
def actionExtremeness : Action → ℕ
  | .strongBuy => 2
  | .buy => 1
  | .hold => 0
  | .sell => 1
  | .strongSell => 2

/-- BUY-family actions profit when the price rises; HOLD is grouped with the
buy direction for the band orientation. -/
def isBuyFamily : Action → Bool
  | .strongBuy => true
  | .buy => true
  | .hold => true
  | .sell => false
  | .strongSell => false

/-- SELL-family actions profit when the price falls. -/
def isSellFamily : Action → Bool
  | .sell => true
  | .strongSell => true
  | _ => false

/-- Clamp a rational into the closed interval from lo to hi. -/
def clampQ (lo hi x : ℚ) : ℚ := max lo (min hi x)

/-- Target, stop-loss and risk/reward triple returned by the calculator. -/
structure TargetStop where
  target : ℚ
  stop : ℚ
  riskReward : ℚ
deriving DecidableEq, Repr

/-- Risk/reward ratio, from the spec output contract: the absolute distance
from entry to target divided by the absolute distance from entry to stop. -/
def riskRewardRatio (entry target stop : ℚ) : ℚ :=
  |target - entry| / |entry - stop|

/-- Modelled from the spec: the minimum-percentage band (2 percent,
a representative configuration value) used when ATR is zero or undefined;
the fallback policy itself is specified but its width constant is not. -/
def minPctBand : ℚ := 1/50

/-- Modelled from the spec: the fallback target/stop band around the entry
price used when ATR is zero or undefined, so that no division by a zero
ATR occurs. -/
def fallbackBand (entry : ℚ) (act : Action) : TargetStop :=
  let t := if isBuyFamily act then entry * (1 + minPctBand) else entry * (1 - minPctBand)
  let s := if isBuyFamily act then entry * (1 - minPctBand) else entry * (1 + minPctBand)
  ⟨t, s, riskRewardRatio entry t s⟩

/-- ATR multiple applied toward the target; the STRONG_BUY multiple 2 is
quoted verbatim in the audit (HOLE 5); the remaining action multiples are
modelled from the spec's rule that a stronger action reaches wider. -/
def atrTargetMult : Action → ℚ
  | .strongBuy => 2
  | .buy => 3/2
  | .hold => 1
  | .sell => 3/2
  | .strongSell => 2

/-- ATR multiple applied toward the stop; the STRONG_BUY multiple 1.5 is
quoted verbatim in the audit (HOLE 5); the remaining action multiples are
modelled from the spec. -/
def atrStopMult : Action → ℚ
  | .strongBuy => 3/2
  | .buy => 1
  | .hold => 1
  | .sell => 1
  | .strongSell => 3/2

/-- Modelled from the spec: the Target/Stop Calculator.  The STRONG_BUY
branch (target = price + 2 ATR, stop = price - 1.5 ATR) is transcribed from
decision_engine.py as quoted in the audit (HOLE 5); a zero or undefined ATR
falls back to the minimum-percentage band, per the fails-closed rule. -/
def calcTargetStop (entry : ℚ) (atr : Option ℚ) (act : Action) : TargetStop :=
  match atr with
  | none => fallbackBand entry act
  | some a =>
    if a ≤ 0 then fallbackBand entry act
    else
      let t := if isBuyFamily act then entry + atrTargetMult act * a
               else entry - atrTargetMult act * a
      let s := if isBuyFamily act then entry - atrStopMult act * a
               else entry + atrStopMult act * a
      ⟨t, s, riskRewardRatio entry t s⟩

/-- Modelled from the spec: the weight actually used for a factor by the
Scoring Aggregator; a missing factor contributes no weight, so the composite
is re-normalized over the weights of the present factors. -/
def usedWeight (scores : Factor → Option ℚ) (w : Factor → ℚ) (f : Factor) : ℚ :=
  match scores f with
  | some _ => w f
  | none => 0

/-- Modelled from the spec: the weighted score contribution of one factor;
a missing factor contributes nothing. -/
def weightedScore (scores : Factor → Option ℚ) (w : Factor → ℚ) (f : Factor) : ℚ :=
  match scores f with
  | some sc => sc * w f
  | none => 0

/-- Modelled from the spec: the composite score of the Scoring Aggregator,
the weight-blended factor scores re-normalized by the sum of the weights
actually used. -/
def compositeScore (scores : Factor → Option ℚ) (w : Factor → ℚ) : ℚ :=
  sumW (weightedScore scores w) / sumW (usedWeight scores w)

/-- Scores of the factors that are present, as a list. -/
def presentScores (s : Factor → Option ℚ) : List ℚ :=
  [s .technical, s .fundamental, s .momentum, s .macroImpact, s .volumeDelivery].filterMap id

/-- Mean of a list of rationals (zero for the empty list). -/
def listMean (l : List ℚ) : ℚ := l.sum / l.length

/-- Population variance of a list of rationals (zero for the empty list). -/
def listVariance (l : List ℚ) : ℚ :=
  (l.map (fun x => (x - listMean l) ^ 2)).sum / l.length

/-- Modelled from the spec: confidence raised by the composite's distance
from the neutral midpoint 50, lowered by disagreement (variance) across the
present factor scores, and clamped to the interval from 30 to 95.  The two
rate constants are representative configuration values. -/
def computeConfidence (composite : ℚ) (scores : Factor → Option ℚ) : ℚ :=
  clampQ 30 95 (50 + |composite - 50| * (9/10)
    - listVariance (presentScores scores) * (1/100))

/-- A Decision record, per the spec data model and the decisions table. -/
structure Decision where
  ticker : String
  entryPrice : ℚ
  compositeScore : ℚ
  action : Action
  confidence : ℚ
  targetPrice : ℚ
  stopLoss : ℚ
  riskRewardRatio : ℚ
  weightVersion : ℕ
  currentPrice : Option ℚ
  pnlPct : Option ℚ
  outcome : Option Outcome
deriving DecidableEq, Repr

/-- Modelled from the spec: computeDecision assembles the full Decision from
the factor scores, the entry price, the ATR and the current weight vector:
composite via the Scoring Aggregator, action via the classifier bands,
target/stop via the calculator, confidence via the clamped formula. -/
def computeDecision (ticker : String) (scores : Factor → Option ℚ)
    (entry : ℚ) (atr : Option ℚ) (w : Factor → ℚ) (wver : ℕ) : Decision :=
  let comp := compositeScore scores w
  let act := classifyAction comp
  let ts := calcTargetStop entry atr act
  { ticker := ticker
    entryPrice := entry
    compositeScore := comp
    action := act
    confidence := computeConfidence comp scores
    targetPrice := ts.target
    stopLoss := ts.stop
    riskRewardRatio := ts.riskReward
    weightVersion := wver
    currentPrice := none
    pnlPct := none
    outcome := none }

/-- Modelled from the spec: signed percentage profit, sign-flipped for the
SELL family. -/
def pnlPercent (entry price : ℚ) (act : Action) : ℚ :=
  let raw := (price - entry) / entry * 100
  if isSellFamily act then -raw else raw

/-- Modelled from the spec: the Outcome Evaluator.  A decision whose outcome
is already terminal (TARGET_HIT or STOPLOSS_HIT) is returned unchanged;
a HOLD decision is only tracked for drift; otherwise the price is compared
against target and stop in the direction of the action family. -/
def evaluateDecision (d : Decision) (price : ℚ) : Decision :=
  if d.outcome = some Outcome.targetHit ∨ d.outcome = some Outcome.stoplossHit then d
  else if d.action = Action.hold then
    { d with currentPrice := some price
             pnlPct := some (pnlPercent d.entryPrice price d.action)
             outcome := some Outcome.holdTracked }
  else
    let hitTarget := if isBuyFamily d.action then d.targetPrice ≤ price
                     else price ≤ d.targetPrice
    let hitStop := if isBuyFamily d.action then price ≤ d.stopLoss
                   else d.stopLoss ≤ price
    if hitTarget then
      { d with currentPrice := some price
               pnlPct := some (pnlPercent d.entryPrice price d.action)
               outcome := some Outcome.targetHit }
    else if hitStop then
      { d with currentPrice := some price
               pnlPct := some (pnlPercent d.entryPrice price d.action)
               outcome := some Outcome.stoplossHit }
    else
      { d with currentPrice := some price
               pnlPct := some (pnlPercent d.entryPrice price d.action)
               outcome := some Outcome.stillOpen }

/-- Modelled from the spec: the adaptation learning rate (a representative
configuration value); weights are nudged toward, not replaced by, the
accuracy-proportional target. -/
def learningRate : ℚ := 1/5

/-- Modelled from the spec: the regularization strength (a representative
configuration value) pulling the nudged weights back toward the original
defaults. -/
def regStrength : ℚ := 1/10

/-- Modelled from the spec: the per-weight floor (a representative
configuration value) below which no factor's weight may fall. -/
def weightFloor : ℚ := 1/20

/-- Modelled from the spec: the per-weight ceiling (a representative
configuration value) above which no factor's weight may rise. -/
def weightCeil : ℚ := 1/2

/-- Modelled from the spec: the target weight proportional to a factor's
recent accuracy (its accuracy normalized over the total accuracy mass). -/
def accuracyTarget (acc : Factor → ℚ) (f : Factor) : ℚ :=
  acc f / sumW acc

/-- Modelled from the spec: a weight nudged toward the accuracy-proportional
target by the learning rate. -/
def nudgedWeight (w acc : Factor → ℚ) (f : Factor) : ℚ :=
  w f + learningRate * (accuracyTarget acc f - w f)

/-- Modelled from the spec: the L2-style regularization step pulling the
nudged weight back toward the original default weight. -/
def regularizedWeight (w acc : Factor → ℚ) (f : Factor) : ℚ :=
  nudgedWeight w acc f + regStrength * (defaultWeights f - nudgedWeight w acc f)

/-- Modelled from the spec: the regularized weight clamped into the
per-weight floor/ceiling band. -/
def boundedWeight (w acc : Factor → ℚ) (f : Factor) : ℚ :=
  clampQ weightFloor weightCeil (regularizedWeight w acc f)

/-- Modelled from the spec: the full weight-adaptation step, nudge then
regularize then clamp then renormalize to sum one. -/
def adaptWeights (w acc : Factor → ℚ) (f : Factor) : ℚ :=
  boundedWeight w acc f / sumW (boundedWeight w acc)

/-- The Learning Engine's mutable state, per the spec data model: the
current weight vector with its monotone version, plus counters. -/
structure LearningState where
  weights : Factor → ℚ
  weightVersion : ℕ
  totalDecisionsEvaluated : ℕ
  adaptationsCount : ℕ

/-- Result of one learning cycle: the updated state, whether an adaptation
was published, and the reported reason. -/
structure LearningResult where
  newState : LearningState
  adapted : Bool
  reason : String

/-- Modelled from the spec: the minimum number of evaluated decisions (a
representative configuration value) required before a weight adaptation is
allowed. -/
def minSampleSize : ℕ := 10

/-- True when all five factor accuracies are equal, the degenerate input
that the spec resolves to no weight change. -/
def allAccuraciesEqual (acc : Factor → ℚ) : Bool :=
  acc .fundamental = acc .technical ∧ acc .momentum = acc .technical ∧
    acc .macroImpact = acc .technical ∧ acc .volumeDelivery = acc .technical

/-- Modelled from the spec: runLearningCycle.  Below the minimum sample it
is a no-op with a reported reason; on all-equal accuracies it changes no
weights; otherwise it publishes the adapted weight vector under an
incremented version. -/
def runLearningCycle (st : LearningState) (evaluatedCount : ℕ)
    (acc : Factor → ℚ) : LearningResult :=
  if evaluatedCount < minSampleSize then
    { newState := st, adapted := false, reason := "insufficient sample size" }
  else if allAccuraciesEqual acc then
    { newState := { st with
        totalDecisionsEvaluated := st.totalDecisionsEvaluated + evaluatedCount }
      adapted := false
      reason := "degenerate all-equal accuracies" }
  else
    { newState :=
        { weights := adaptWeights st.weights acc
          weightVersion := st.weightVersion + 1
          totalDecisionsEvaluated := st.totalDecisionsEvaluated + evaluatedCount
          adaptationsCount := st.adaptationsCount + 1 }
      adapted := true
      reason := "weights adapted toward factor accuracy" }

/-- The body of an HTTP response as seen by fetchJson in src/api.ts: either
it fails to parse as JSON, or it parses to an object whose optional detail
field is a string. -/
inductive JsonBody where
  | malformed
  | obj (detail : Option String)
deriving DecidableEq, Repr

/-- The response fields fetchJson in src/api.ts inspects: ok, statusText and
the body. -/
structure HttpResponse where
  ok : Bool
  statusText : String
  body : JsonBody
deriving DecidableEq, Repr

/-- What a fetchJson call produces: the parsed body on success, a rejection
of the ok-branch res.json() on an unparseable ok body, or a thrown Error
carrying a message. -/
inductive FetchResult where
  | success (body : JsonBody)
  | parseFailure
  | failure (message : String)
deriving DecidableEq, Repr

/-- JavaScript string-or: a non-empty string is truthy, an empty string
falls through to the fallback. -/
def jsStringOr (s fallback : String) : String :=
  if s = "" then fallback else s

/-- fetchJson from src/api.ts lines 3-13: on ok, return res.json(); on
non-ok, parse the body (the catch substitutes an object whose detail is
statusText) and throw an Error with message err.detail or-else API Error. -/
def fetchJson (res : HttpResponse) : FetchResult :=
  if res.ok then
    match res.body with
    | .malformed => .parseFailure
    | b => .success b
  else
    let errDetail : Option String :=
      match res.body with
      | .malformed => some res.statusText
      | .obj d => d
    match errDetail with
    | some s => .failure (jsStringOr s "API Error")
    | none => .failure "API Error"

/-- Stated from the claim's words, for comparison with fetchJson: on non-ok
the thrown message is the body's detail field whenever the body parses as
JSON with that field, otherwise the statusText, otherwise API Error; on ok
the parsed body is returned. -/
def fetchJsonClaimed (res : HttpResponse) : FetchResult :=
  if res.ok then .success res.body
  else
    .failure (match res.body with
      | .obj (some d) => d
      | _ => jsStringOr res.statusText "API Error")

/-- The error message fetchJson actually throws on a non-ok response: the
detail field when the body parses with a non-empty detail, else the
statusText when the body fails to parse and statusText is non-empty, else
API Error. -/
def amendedMessage (res : HttpResponse) : String :=
  match res.body with
  | .obj (some d) => if d = "" then "API Error" else d
  | .obj none => "API Error"
  | .malformed => if res.statusText = "" then "API Error" else res.statusText

/-- The amended description of fetchJson: success with the parsed body when
ok and the body parses, a parse rejection when ok and it does not, and a
thrown Error with the amended message when not ok. -/
def fetchJsonAmended (res : HttpResponse) : FetchResult :=
  if res.ok then
    match res.body with
    | .malformed => .parseFailure
    | b => .success b
  else .failure (amendedMessage res)

/-- The clamp lands inside the closed interval whenever it is non-empty. -/
theorem clampQ_bounds (lo hi x : ℚ) (h : lo ≤ hi) :
    lo ≤ clampQ lo hi x ∧ clampQ lo hi x ≤ hi :=
  ⟨le_max_left _ _, max_le h (min_le_left _ _)⟩

/-- sumW respects pointwise equality. -/
theorem sumW_congr {a b : Factor → ℚ} (h : ∀ f, a f = b f) : sumW a = sumW b := by
  unfold sumW; rw [h, h, h, h, h]

/-- sumW is monotone pointwise. -/
theorem sumW_le {a b : Factor → ℚ} (h : ∀ f, a f ≤ b f) : sumW a ≤ sumW b := by
  unfold sumW
  have h1 := h .technical
  have h2 := h .fundamental
  have h3 := h .momentum
  have h4 := h .macroImpact
  have h5 := h .volumeDelivery
  linarith

/-- sumW of a pointwise non-negative family is non-negative. -/
theorem sumW_nonneg {a : Factor → ℚ} (h : ∀ f, 0 ≤ a f) : 0 ≤ sumW a := by
  unfold sumW
  linarith [h Factor.technical, h Factor.fundamental, h Factor.momentum,
    h Factor.macroImpact, h Factor.volumeDelivery]

/-- Claim C1 counterexample: the composite score 30 sits exactly on the
boundary between the SELL band and the STRONG_SELL band (scores just below
30 classify as STRONG_SELL), yet the classifier resolves it to SELL, which
is strictly less extreme than STRONG_SELL — so a boundary score does not
always resolve to the more extreme label. -/
theorem claim_C1_counterexample :
    classifyAction 30 = Action.sell ∧
    classifyAction (29999999/1000000) = Action.strongSell ∧
    actionExtremeness Action.sell < actionExtremeness Action.strongSell := by
  refine ⟨by norm_num [classifyAction], by norm_num [classifyAction],
    by norm_num [actionExtremeness]⟩

/-- Claim C1 (amended): every composite score in the interval from 0 to 100
classifies to exactly one action through the contiguous bands at least 72
STRONG_BUY, at least 60 BUY, at least 42 HOLD, at least 30 SELL, else
STRONG_SELL, and a score exactly on a boundary always resolves to the
higher band — which is the more extreme label on the buy side (72 gives
STRONG_BUY, not BUY) but the less extreme label on the sell side (30 gives
SELL, not STRONG_SELL). -/
theorem claim_C1_classifier_bands (c : ℚ) (h0 : 0 ≤ c) (h1 : c ≤ 100) :
    (∃! a : Action, classifyAction c = a) ∧
    (classifyAction c = Action.strongBuy ↔ 72 ≤ c ∧ c ≤ 100) ∧
    (classifyAction c = Action.buy ↔ 60 ≤ c ∧ c < 72) ∧
    (classifyAction c = Action.hold ↔ 42 ≤ c ∧ c < 60) ∧
    (classifyAction c = Action.sell ↔ 30 ≤ c ∧ c < 42) ∧
    (classifyAction c = Action.strongSell ↔ 0 ≤ c ∧ c < 30) ∧
    classifyAction 72 = Action.strongBuy ∧ classifyAction 60 = Action.buy ∧
    classifyAction 42 = Action.hold ∧ classifyAction 30 = Action.sell := by
  refine ⟨⟨classifyAction c, rfl, fun y hy => hy.symm⟩, ?_, ?_, ?_, ?_, ?_,
    by norm_num [classifyAction], by norm_num [classifyAction],
    by norm_num [classifyAction], by norm_num [classifyAction]⟩ <;>
  · unfold classifyAction
    split_ifs with h72 h60 h42 h30 <;> simp_all [not_le] <;>
      (repeat' apply And.intro) <;> (try intro h9) <;> linarith

/-- Witness for the amended claim C1, at the boundary score 30. -/
theorem claim_C1_witness :
    (0:ℚ) ≤ 30 ∧ (30:ℚ) ≤ 100 ∧
    (classifyAction (30:ℚ) = Action.sell ↔ (30:ℚ) ≤ 30 ∧ (30:ℚ) < 42) := by
  have h := claim_C1_classifier_bands 30 (by norm_num) (by norm_num)
  exact ⟨by norm_num, by norm_num, h.2.2.2.2.1⟩

/-- Claim C2: for a STRONG_BUY with a positive ATR, the calculator returns
target = entry + 2 ATR, stop = entry - 1.5 ATR and risk/reward equal to the
distance ratio, which is always 4/3; the worked example entry 2500, ATR 40
gives target 2580, stop 2440 and risk/reward 80/60. -/
theorem claim_C2_strong_buy_target_stop (p a : ℚ) (ha : 0 < a) :
    (calcTargetStop p (some a) Action.strongBuy).target = p + 2 * a ∧
    (calcTargetStop p (some a) Action.strongBuy).stop = p - 3/2 * a ∧
    (calcTargetStop p (some a) Action.strongBuy).riskReward =
      |(calcTargetStop p (some a) Action.strongBuy).target - p| /
        |p - (calcTargetStop p (some a) Action.strongBuy).stop| ∧
    (calcTargetStop p (some a) Action.strongBuy).riskReward = 4/3 ∧
    (calcTargetStop 2500 (some 40) Action.strongBuy).target = 2580 ∧
    (calcTargetStop 2500 (some 40) Action.strongBuy).stop = 2440 ∧
    (calcTargetStop 2500 (some 40) Action.strongBuy).riskReward = 80/60 := by
  have hna : ¬ a ≤ 0 := not_le.mpr ha
  have ht : (calcTargetStop p (some a) Action.strongBuy).target = p + 2 * a := by
    simp [calcTargetStop, hna, isBuyFamily, atrTargetMult]
  have hs : (calcTargetStop p (some a) Action.strongBuy).stop = p - 3/2 * a := by
    simp [calcTargetStop, hna, isBuyFamily, atrStopMult]
  have hr : (calcTargetStop p (some a) Action.strongBuy).riskReward =
      riskRewardRatio p (p + 2 * a) (p - 3/2 * a) := by
    simp [calcTargetStop, hna, isBuyFamily, atrTargetMult, atrStopMult]
  have habs1 : |p + 2 * a - p| = 2 * a := by
    rw [show p + 2 * a - p = 2 * a by ring]
    exact abs_of_pos (by linarith)
  have habs2 : |p - (p - 3/2 * a)| = 3/2 * a := by
    rw [show p - (p - 3/2 * a) = 3/2 * a by ring]
    exact abs_of_pos (by linarith)
  refine ⟨ht, hs, ?_, ?_, ?_, ?_, ?_⟩
  · rw [hr, ht, hs]; rfl
  · rw [hr]
    unfold riskRewardRatio
    rw [habs1, habs2]
    rw [div_eq_div_iff (by linarith) (by norm_num)]
    ring
  · norm_num [calcTargetStop, isBuyFamily, atrTargetMult]
  · norm_num [calcTargetStop, isBuyFamily, atrStopMult]
  · norm_num [calcTargetStop, isBuyFamily, atrTargetMult, atrStopMult, riskRewardRatio]

/-- Witness for claim C2, at the worked example entry 2500 and ATR 40. -/
theorem claim_C2_witness :
    (0:ℚ) < 40 ∧ (calcTargetStop 2500 (some 40) Action.strongBuy).target = 2500 + 2 * 40 :=
  ⟨by norm_num, (claim_C2_strong_buy_target_stop 2500 40 (by norm_num)).1⟩

/-- Every clamped weight sits at or above the floor. -/
theorem weightFloor_le_boundedWeight (w acc : Factor → ℚ) (f : Factor) :
    weightFloor ≤ boundedWeight w acc f :=
  le_max_left _ _

/-- The clamped weights have a strictly positive sum. -/
theorem sumW_boundedWeight_pos (w acc : Factor → ℚ) :
    0 < sumW (boundedWeight w acc) := by
  have h1 := weightFloor_le_boundedWeight w acc .technical
  have h2 := weightFloor_le_boundedWeight w acc .fundamental
  have h3 := weightFloor_le_boundedWeight w acc .momentum
  have h4 := weightFloor_le_boundedWeight w acc .macroImpact
  have h5 := weightFloor_le_boundedWeight w acc .volumeDelivery
  unfold weightFloor at h1 h2 h3 h4 h5
  unfold sumW
  linarith

/-- Claim C3: every weight vector produced by the adaptation step is
non-negative and sums to 1 within one part in a million (over the exact
rationals the sum is exactly 1), and the published default weight vector
0.30, 0.25, 0.20, 0.15, 0.10 satisfies the same invariant. -/
theorem claim_C3_weights_nonneg_sum_one :
    (∀ w acc : Factor → ℚ, ∀ f, 0 ≤ adaptWeights w acc f) ∧
    (∀ w acc : Factor → ℚ, |sumW (adaptWeights w acc) - 1| ≤ 1/1000000) ∧
    (∀ f, 0 ≤ defaultWeights f) ∧ |sumW defaultWeights - 1| ≤ 1/1000000 := by
  refine ⟨?_, ?_, ?_, ?_⟩
  · intro w acc f
    have hf := weightFloor_le_boundedWeight w acc f
    have hf0 : (0:ℚ) ≤ boundedWeight w acc f := by
      unfold weightFloor at hf; linarith
    exact div_nonneg hf0 (sumW_boundedWeight_pos w acc).le
  · intro w acc
    have hS := sumW_boundedWeight_pos w acc
    have hsum : sumW (adaptWeights w acc) =
        sumW (boundedWeight w acc) / sumW (boundedWeight w acc) := by
      unfold adaptWeights sumW
      ring
    rw [hsum, div_self (ne_of_gt hS)]
    norm_num
  · intro f; cases f <;> norm_num [defaultWeights]
  · norm_num [sumW, defaultWeights]

/-- Claim C4: the confidence field of every Decision assembled by
computeDecision lies in the closed interval from 30 to 95, whatever the
composite score or the factor scores are. -/
theorem claim_C4_confidence_bounds :
    ∀ (ticker : String) (scores : Factor → Option ℚ) (entry : ℚ)
      (atr : Option ℚ) (w : Factor → ℚ) (wver : ℕ),
      30 ≤ (computeDecision ticker scores entry atr w wver).confidence ∧
      (computeDecision ticker scores entry atr w wver).confidence ≤ 95 := by
  intro ticker scores entry atr w wver
  have hc : (computeDecision ticker scores entry atr w wver).confidence =
      computeConfidence (compositeScore scores w) scores := rfl
  rw [hc]
  unfold computeConfidence
  exact clampQ_bounds 30 95 _ (by norm_num)

/-- Claim C5: the Outcome Evaluator is idempotent on terminal decisions: a
decision whose outcome is already TARGET_HIT or STOPLOSS_HIT is returned
unchanged for every later price, keeping its stored outcome and pnl. -/
theorem claim_C5_terminal_idempotent (d : Decision) (price : ℚ)
    (h : d.outcome = some Outcome.targetHit ∨ d.outcome = some Outcome.stoplossHit) :
    evaluateDecision d price = d ∧
    (evaluateDecision d price).outcome = d.outcome ∧
    (evaluateDecision d price).pnlPct = d.pnlPct := by
  have he : evaluateDecision d price = d := by
    unfold evaluateDecision
    rw [if_pos h]
  exact ⟨he, by rw [he], by rw [he]⟩

/-- A stopped-out STRONG_BUY decision used to witness claim C5. -/
def exampleStoplossDecision : Decision :=
  { ticker := "RELIANCE"
    entryPrice := 2500
    compositeScore := 75
    action := Action.strongBuy
    confidence := 80
    targetPrice := 2580
    stopLoss := 2440
    riskRewardRatio := 4/3
    weightVersion := 1
    currentPrice := some 2430
    pnlPct := some (-14/5)
    outcome := some Outcome.stoplossHit }

/-- Witness for claim C5: re-evaluating the stopped-out decision at a much
higher price 3000 leaves it unchanged. -/
theorem claim_C5_witness :
    exampleStoplossDecision.outcome = some Outcome.stoplossHit ∧
    evaluateDecision exampleStoplossDecision 3000 = exampleStoplossDecision :=
  ⟨rfl, (claim_C5_terminal_idempotent exampleStoplossDecision 3000 (Or.inr rfl)).1⟩

/-- Claim C7: invoked below the minimum sample size, the learning cycle is a
no-op: the state (hence the weight vector and its version) is returned
unchanged, no adaptation is reported, and a reason is reported instead of an
exception being raised. -/
theorem claim_C7_adaptation_guard (st : LearningState) (n : ℕ)
    (acc : Factor → ℚ) (h : n < minSampleSize) :
    (runLearningCycle st n acc).newState = st ∧
    (runLearningCycle st n acc).newState.weights = st.weights ∧
    (runLearningCycle st n acc).newState.weightVersion = st.weightVersion ∧
    (runLearningCycle st n acc).adapted = false ∧
    (runLearningCycle st n acc).reason = "insufficient sample size" := by
  have he : runLearningCycle st n acc =
      { newState := st, adapted := false, reason := "insufficient sample size" } := by
    unfold runLearningCycle
    rw [if_pos h]
  rw [he]
  exact ⟨rfl, rfl, rfl, rfl, rfl⟩

/-- Learning state used to witness claim C7. -/
def exampleLearningState : LearningState :=
  { weights := defaultWeights
    weightVersion := 1
    totalDecisionsEvaluated := 0
    adaptationsCount := 0 }

/-- Witness for claim C7, with 3 evaluated decisions against the minimum
of 10. -/
theorem claim_C7_witness :
    3 < minSampleSize ∧
    (runLearningCycle exampleLearningState 3 (fun f => defaultWeights f)).newState =
      exampleLearningState ∧
    (runLearningCycle exampleLearningState 3 (fun f => defaultWeights f)).adapted = false := by
  have h3 : 3 < minSampleSize := by norm_num [minSampleSize]
  have h := claim_C7_adaptation_guard exampleLearningState 3 (fun f => defaultWeights f) h3
  exact ⟨h3, h.1, h.2.2.2.1⟩

/-- Claim C8: the composite score is monotone in each factor: raising one
present factor's score while all other factors (scores and presence) and
the non-negative weight vector are held fixed never decreases the
composite. -/
theorem claim_C8_composite_monotone (s1 s2 : Factor → Option ℚ)
    (w : Factor → ℚ) (f0 : Factor) (v1 v2 : ℚ)
    (hothers : ∀ f, f ≠ f0 → s1 f = s2 f)
    (hv1 : s1 f0 = some v1) (hv2 : s2 f0 = some v2) (hle : v1 ≤ v2)
    (hw : ∀ f, 0 ≤ w f) :
    compositeScore s1 w ≤ compositeScore s2 w := by
  have hden : sumW (usedWeight s1 w) = sumW (usedWeight s2 w) := by
    apply sumW_congr
    intro f
    by_cases hf : f = f0
    · subst hf
      unfold usedWeight
      rw [hv1, hv2]
    · unfold usedWeight
      rw [hothers f hf]
  have hnum : sumW (weightedScore s1 w) ≤ sumW (weightedScore s2 w) := by
    apply sumW_le
    intro f
    by_cases hf : f = f0
    · subst hf
      unfold weightedScore
      rw [hv1, hv2]
      exact mul_le_mul_of_nonneg_right hle (hw f)
    · unfold weightedScore
      rw [hothers f hf]
  have hdnn : 0 ≤ sumW (usedWeight s2 w) := by
    apply sumW_nonneg
    intro f
    rcases hsf : s2 f with _ | v <;> simp [usedWeight, hsf, hw f]
  unfold compositeScore
  rw [hden]
  rcases eq_or_lt_of_le hdnn with hz | hpos
  · rw [← hz]
    simp
  · exact (div_le_div_iff_of_pos_right hpos).mpr hnum

/-- Factor scores with the technical factor at 60, used to witness C8. -/
def exampleScoresLow : Factor → Option ℚ
  | .technical => some 60
  | .fundamental => some 85
  | .momentum => some 70
  | .macroImpact => none
  | .volumeDelivery => some 65

/-- The same factor scores with the technical factor raised to 80. -/
def exampleScoresHigh : Factor → Option ℚ
  | .technical => some 80
  | .fundamental => some 85
  | .momentum => some 70
  | .macroImpact => none
  | .volumeDelivery => some 65

/-- Witness for claim C8: raising the technical score from 60 to 80 under
the default weights does not decrease the composite. -/
theorem claim_C8_witness :
    compositeScore exampleScoresLow defaultWeights ≤
      compositeScore exampleScoresHigh defaultWeights := by
  apply claim_C8_composite_monotone exampleScoresLow exampleScoresHigh
    defaultWeights Factor.technical 60 80
  · intro f hf
    cases f <;> first | exact absurd rfl hf | rfl
  · rfl
  · rfl
  · norm_num
  · intro f; cases f <;> norm_num [defaultWeights]

/-- Claim C9: when the ATR is undefined or zero, the calculator uses the
minimum-percentage band around the entry price, and for a positive entry
the risk/reward denominator (distance from entry to stop) is non-zero, so
no division by a zero ATR band occurs. -/
theorem claim_C9_zero_atr_fallback (p : ℚ) (act : Action) (atr : Option ℚ)
    (h : atr = none ∨ atr = some 0) :
    calcTargetStop p atr act = fallbackBand p act ∧
    (0 < p → p - (calcTargetStop p atr act).stop ≠ 0) := by
  have he : calcTargetStop p atr act = fallbackBand p act := by
    rcases h with h | h <;> subst h
    · rfl
    · simp [calcTargetStop]
  refine ⟨he, ?_⟩
  intro hp
  rw [he]
  have hs : (fallbackBand p act).stop =
      if isBuyFamily act then p * (1 - 1/50) else p * (1 + 1/50) := by
    simp [fallbackBand, minPctBand]
  rw [hs]
  cases hb : isBuyFamily act <;> simp [hb] <;> intro hcontra <;> nlinarith

/-- Witness for claim C9: an undefined ATR at entry 100 for a BUY falls
back to the band and keeps the stop away from the entry. -/
theorem claim_C9_witness :
    calcTargetStop 100 none Action.buy = fallbackBand 100 Action.buy ∧
    (100:ℚ) - (calcTargetStop 100 none Action.buy).stop ≠ 0 := by
  have h := claim_C9_zero_atr_fallback 100 Action.buy none (Or.inl rfl)
  exact ⟨h.1, h.2 (by norm_num)⟩

/-- Claim C10 counterexample: for a non-ok response whose body parses as
JSON without a detail field, fetchJson throws API Error, not the statusText
the claim requires; and a present but empty detail field also yields API
Error rather than the detail value. -/
theorem claim_C10_counterexample :
    fetchJson ⟨false, "Not Found", JsonBody.obj none⟩ =
      FetchResult.failure "API Error" ∧
    fetchJsonClaimed ⟨false, "Not Found", JsonBody.obj none⟩ =
      FetchResult.failure "Not Found" ∧
    fetchJson ⟨false, "Not Found", JsonBody.obj none⟩ ≠
      fetchJsonClaimed ⟨false, "Not Found", JsonBody.obj none⟩ ∧
    fetchJson ⟨false, "Bad Request", JsonBody.obj (some "")⟩ =
      FetchResult.failure "API Error" ∧
    fetchJsonClaimed ⟨false, "Bad Request", JsonBody.obj (some "")⟩ =
      FetchResult.failure "" := by
  refine ⟨by decide, by decide, by decide, by decide, by decide⟩

/-- Claim C10 (amended): fetchJson returns the parsed body exactly when the
response is ok and the body parses (an ok unparseable body rejects with the
parse error); on a non-ok response it throws an Error whose message is the
body's detail field when the body parses as JSON with a non-empty detail,
otherwise the statusText when the body fails to parse as JSON and the
statusText is non-empty, otherwise API Error. -/
theorem claim_C10_fetchJson_behavior :
    ∀ res : HttpResponse, fetchJson res = fetchJsonAmended res := by
  intro res
  obtain ⟨ok, st, body⟩ := res
  cases ok <;> rcases body with _ | ⟨_ | d⟩ <;> rfl

end WSA
